import Mathlib

/-!
Verification of `ceda/unittest_nagios_wrapper/script.py`: a wrapper that runs
a unittest test case and reports the outcome in Nagios-plugin vocabulary.

The embedding models:
  - the unittest layer (`loadTestsFromTestCase` / `TestSuite.run` /
    `TestResult`) as pure functions over a declarative description of a test
    case class (each test method together with the outcome it produces when
    run);
  - `UnittestCaseContext.evaluate` (script.py lines 36-87);
  - `UnittestCaseResource.probe` (lines 99-103);
  - `UnittestCaseResultsSummary.ok` / `.problem` (lines 109-117);
  - the configuration phases of `nagios_script` (lines 129-223): the
    pre-parse default-log-level check, the Slack option precedence rules and
    handler attachment, and the default test selection.

Logging side effects (`log.critical`, `log.error`, `log.debug`, `log.info`)
are not modelled; only returned values and raised/terminating outcomes are.
-/

/-- Outcome an individual unittest test method produces when it is run:
it passes, fails (assertion failure, recorded in `TestResult.failures`), or
errors (unexpected exception, recorded in `TestResult.errors`). -/
inductive TestOutcome : Type where
  | pass : TestOutcome
  | fail : TestOutcome
  | error : TestOutcome
deriving DecidableEq, Repr

/-- A unittest `TestCase` class: its name (`__name__`) and its test methods,
each given as (method name, outcome when run), in the order the test loader
arranges them in the suite. -/
structure TestCaseClass : Type where
  name : String
  tests : List (String × TestOutcome)
deriving DecidableEq, Repr

/-- Model of `unittest.defaultTestLoader.loadTestsFromTestCase(cls)`
(script.py lines 42-43): the suite holds every test method of the class.
Note the call site passes only `self._unittestcase_class`; no test selection
happens here. -/
def loadTestsFromTestCase (cls : TestCaseClass) : List (String × TestOutcome) :=
  cls.tests

/-- Model of `unittest.TestResult` after `test_suite.run(result)`
(script.py lines 45-46): `testsRun` counts started tests, `failures` and
`errors` list the reported identifiers of failing resp. erroring tests, in
run order.  (The real entries are (test, traceback) pairs; the traceback
component only feeds logging, which is not modelled, and `str(entry[0])` is
the reported test identifier kept here.) -/
structure TestResult : Type where
  testsRun : Nat
  failures : List String
  errors : List String
deriving DecidableEq, Repr

/-- Model of building the suite from the class and running it
(script.py lines 42-46). -/
def runTestCase (cls : TestCaseClass) : TestResult :=
  { testsRun := (loadTestsFromTestCase cls).length
    failures :=
      ((loadTestsFromTestCase cls).filter (fun t => t.2 == TestOutcome.fail)).map Prod.fst
    errors :=
      ((loadTestsFromTestCase cls).filter (fun t => t.2 == TestOutcome.error)).map Prod.fst }

/-- The set of tests `UnittestCaseContext.evaluate` actually executes for a
given metric (script.py lines 40-46): the suite comes from
`loadTestsFromTestCase(self._unittestcase_class)` and the test name of the metric
is not consulted, so the whole test case runs. -/
def executedTests (cls : TestCaseClass) (metric : String) : List String :=
  (loadTestsFromTestCase cls).map Prod.fst

/-- Nagios service states used by the script: `nagiosplugin.context.Ok`,
`Warn`, `Critical` (plus `Unknown`, produced only by the external guard). -/
inductive ServiceState : Type where
  | Ok : ServiceState
  | Warn : ServiceState
  | Critical : ServiceState
  | Unknown : ServiceState
deriving DecidableEq, Repr

/-- The value returned by `UnittestCaseContext.evaluate` via
`self.result_cls(status, hint=hint, metric=metric)` (script.py line 87). -/
structure EvalResult : Type where
  state : ServiceState
  hint : String
  metric : String
deriving DecidableEq, Repr

/-- `UnittestCaseContext.evaluate` (script.py lines 36-87).  The context
holds `unittestcase_class` (line 33); the first component of the metric is
the test name (line 40).  Mirrors the source: count failures and errors, branch
on `n_problems > 0`, pick Critical/"All tests failed: " when
`testsRun == n_problems` else Warn/"Some tests failed: ", append the error
identifiers then the failure identifiers joined by ", ", else return Ok with
hint "<test_name> test passed". -/
def UnittestCaseContext.evaluate (unittestcase_class : TestCaseClass)
    (metric : String) : EvalResult :=
  let test_name := metric
  let result := runTestCase unittestcase_class
  let n_failures := result.failures.length
  let n_errors := result.errors.length
  let n_problems := n_failures + n_errors
  if n_problems > 0 then
    let state :=
      if result.testsRun = n_problems then ServiceState.Critical
      else ServiceState.Warn
    let hintHead :=
      if result.testsRun = n_problems then "All tests failed: "
      else "Some tests failed: "
    let hint_list := result.errors ++ result.failures
    { state := state
      hint := hintHead ++ String.intercalate ", " hint_list
      metric := metric }
  else
    { state := ServiceState.Ok
      hint := test_name ++ " test passed"
      metric := metric }

/-- Total number of problems `n_problems = n_failures + n_errors`
(script.py lines 48-50) for a test case class. -/
def problemCount (cls : TestCaseClass) : Nat :=
  (runTestCase cls).failures.length + (runTestCase cls).errors.length

/-- A `nagiosplugin.Metric` as produced by the resource (script.py
lines 102-103): name, boolean value, and the context name. -/
structure Metric : Type where
  name : String
  value : Bool
  context : String
deriving DecidableEq, Repr

/-- `UnittestCaseResource.probe` (script.py lines 99-103): yields one metric
per stored test name, with value `True` and context `UnittestCaseContext`. -/
def UnittestCaseResource.probe (test_names : List String) : List Metric :=
  test_names.map (fun test_name =>
    { name := test_name, value := true, context := "UnittestCaseContext" })

/-- `UnittestCaseResultsSummary.ok` (script.py lines 109-112): join the
hints of all results with ", " (the `log.info(msg)` side effect is not
modelled; the returned message is). -/
def UnittestCaseResultsSummary.ok (results : List EvalResult) : String :=
  String.intercalate ", " (results.map (fun result => result.hint))

/-- `UnittestCaseResultsSummary.problem` (script.py lines 114-117): join the
hints of all results with ", " (the `log.info(msg)` side effect is not
modelled; the returned message is). -/
def UnittestCaseResultsSummary.problem (results : List EvalResult) : String :=
  String.intercalate ", " (results.map (fun result => result.hint))

/-! ### The `nagios_script` entry point (script.py lines 128-237)

The CPython `logging` module holds the internal tables read by the script
(script.py lines 23, 157, 210):
  `logging._levelToName = {50: CRITICAL, 40: ERROR, 30: WARNING, 20: INFO,
   10: DEBUG, 0: NOTSET}` and
  `logging._nameToLevel = {CRITICAL: 50, FATAL: 50, ERROR: 40, WARN: 30,
   WARNING: 30, INFO: 20, DEBUG: 10, NOTSET: 0}`.
-/

/-- `logging._levelToName.get` : numeric level to standard severity name. -/
def levelToName (level : Nat) : Option String :=
  if level = 50 then some "CRITICAL"
  else if level = 40 then some "ERROR"
  else if level = 30 then some "WARNING"
  else if level = 20 then some "INFO"
  else if level = 10 then some "DEBUG"
  else if level = 0 then some "NOTSET"
  else none

/-- `logging._nameToLevel.get` : severity name to numeric level. -/
def nameToLevel (name : String) : Option Nat :=
  if name = "CRITICAL" then some 50
  else if name = "FATAL" then some 50
  else if name = "ERROR" then some 40
  else if name = "WARN" then some 30
  else if name = "WARNING" then some 30
  else if name = "INFO" then some 20
  else if name = "DEBUG" then some 10
  else if name = "NOTSET" then some 0
  else none

/-- `LOG_LEVEL_NAMES_STR` (script.py lines 23-24): the keys of
`logging._nameToLevel` joined by ", ". -/
def LOG_LEVEL_NAMES_STR : String :=
  String.intercalate ", "
    ["CRITICAL", "FATAL", "ERROR", "WARN", "WARNING", "INFO", "DEBUG",
     "NOTSET"]

/-- Outcome of the pre-parse phase of `nagios_script` (script.py lines
157-161): either `UnittestNagiosWrapperConfigError` is raised, or execution
continues into argument-parser construction carrying `log_level_s`, the
severity name used as the default of `--slack-log-level` (line 171). -/
inductive PreParseOutcome : Type where
  | configError : String → PreParseOutcome
  | proceed : Option String → PreParseOutcome
deriving DecidableEq, Repr

/-- The default-log-level check of `nagios_script` (script.py lines
157-161), before any `parser.add_argument` or parsing:
`log_level_s = logging._levelToName.get(log_level)`; then the source tests
`if log_level is None` (not `log_level_s`) to decide whether to raise
`UnittestNagiosWrapperConfigError`.  The caller-supplied `log_level` is
`none` for Python `None`, `some n` for an integer level. -/
def checkDefaultLogLevel (log_level : Option Nat) : PreParseOutcome :=
  let log_level_s := log_level.bind levelToName
  match log_level with
  | none =>
      PreParseOutcome.configError
        ("Unrecognised default log-level set.  Use one of: " ++
         LOG_LEVEL_NAMES_STR)
  | some _ => PreParseOutcome.proceed log_level_s

/-- The argument values `nagios_script` reads back from
`parser.parse_known_args()` (script.py line 196).  Each Slack option is
`none` when the flag is absent (parser default `None`, lines 176, 186, 194);
`log_level` is the string value of `--slack-log-level`, defaulting to the
`log_level_s` computed before parsing (line 171). -/
structure ParsedArgs : Type where
  log_level : Option String
  slack_webhook_url : Option String
  slack_channel : Option String
  slack_user : Option String
deriving DecidableEq, Repr

/-- The precedence rule of script.py lines 200-207: a command-line value, if
present, overrides the caller-supplied default
(`if parsed_args.x is not None: x = parsed_args.x`). -/
def resolveOpt (cmdline default_ : Option String) : Option String :=
  match cmdline with
  | some value => some value
  | none => default_

/-- Outcome of the Slack-notification setup in `nagios_script` (script.py
lines 200-218): either `parser.error` terminates the process with a usage
error, or execution continues with no handler attached, or exactly one
`SlackHandler(url, channel=..., username=..., level=...)` is attached to the
logger via `log.addHandler`. -/
inductive NotifySetupResult : Type where
  | usageError : String → NotifySetupResult
  | noHandler : NotifySetupResult
  | handlerAttached : String → Option String → Option String → Nat →
      NotifySetupResult
deriving DecidableEq, Repr

/-- The Slack-notification setup of `nagios_script` (script.py lines
200-218): resolve webhook URL, channel and user by precedence; when a
webhook URL is resolved, look up `parsed_args.log_level` in
`logging._nameToLevel`, call `parser.error` when the lookup misses, else
attach the handler at the looked-up threshold.  When no webhook URL is
resolved the whole block is skipped. -/
def setupNotification (default_webhook default_channel default_user :
    Option String) (parsed_args : ParsedArgs) : NotifySetupResult :=
  let slack_webhook_url := resolveOpt parsed_args.slack_webhook_url
    default_webhook
  let slack_channel := resolveOpt parsed_args.slack_channel default_channel
  let slack_user := resolveOpt parsed_args.slack_user default_user
  match slack_webhook_url with
  | none => NotifySetupResult.noHandler
  | some url =>
      match parsed_args.log_level.bind nameToLevel with
      | none =>
          NotifySetupResult.usageError
            ("Unrecognised log-level.  Use one of: " ++ LOG_LEVEL_NAMES_STR)
      | some level =>
          NotifySetupResult.handlerAttached url slack_channel slack_user
            level

/-- The test-selection default of `nagios_script` (script.py lines
220-223): `selected_test_names` are the positional arguments left over by
`parse_known_args`; when there are none, default to the single-element list
holding the test case class name (run the whole case). -/
def selectTestNames (class_name : String)
    (selected_test_names : List String) : List String :=
  if selected_test_names.length = 0 then [class_name]
  else selected_test_names

/-! ### Concrete test-case fixtures used by witnesses and counterexamples -/

/-- A test case class with one passing and one failing test. -/
def mixedCase : TestCaseClass :=
  { name := "MixedCase"
    tests := [("test_a", TestOutcome.pass), ("test_b", TestOutcome.fail)] }

/-- A test case class where every test errors or fails. -/
def allFailCase : TestCaseClass :=
  { name := "AllFailCase"
    tests := [("test_err", TestOutcome.error), ("test_fail", TestOutcome.fail)] }

/-- A test case class where every test passes. -/
def allPassCase : TestCaseClass :=
  { name := "AllPassCase"
    tests := [("test_a", TestOutcome.pass), ("test_b", TestOutcome.pass)] }

/-! ### Helper lemmas about `UnittestCaseContext.evaluate` -/

/-- When no test fails or errors, `evaluate` takes the `else` branch
(script.py lines 82-87). -/
lemma evaluate_eq_of_no_problems (cls : TestCaseClass) (m : String)
    (h : problemCount cls = 0) :
    UnittestCaseContext.evaluate cls m =
      { state := ServiceState.Ok, hint := m ++ " test passed", metric := m } := by
  have h0 : (runTestCase cls).failures.length + (runTestCase cls).errors.length = 0 := h
  simp [UnittestCaseContext.evaluate, h0]

/-- When every executed test fails or errors, `evaluate` takes the Critical
branch (script.py lines 55-58, 67-81, 87). -/
lemma evaluate_eq_of_all_problems (cls : TestCaseClass) (m : String)
    (h : 0 < problemCount cls)
    (hall : (runTestCase cls).testsRun = problemCount cls) :
    UnittestCaseContext.evaluate cls m =
      { state := ServiceState.Critical
        hint := "All tests failed: " ++ String.intercalate ", "
          ((runTestCase cls).errors ++ (runTestCase cls).failures)
        metric := m } := by
  have h0 : 0 < (runTestCase cls).failures.length + (runTestCase cls).errors.length := h
  have h1 : (runTestCase cls).testsRun =
      (runTestCase cls).failures.length + (runTestCase cls).errors.length := hall
  simp [UnittestCaseContext.evaluate, h0, h1, Nat.pos_iff_ne_zero]

/-- When some but not all executed tests fail or error, `evaluate` takes the
Warning branch (script.py lines 59-62, 67-81, 87). -/
lemma evaluate_eq_of_some_problems (cls : TestCaseClass) (m : String)
    (h : 0 < problemCount cls)
    (hne : (runTestCase cls).testsRun ≠ problemCount cls) :
    UnittestCaseContext.evaluate cls m =
      { state := ServiceState.Warn
        hint := "Some tests failed: " ++ String.intercalate ", "
          ((runTestCase cls).errors ++ (runTestCase cls).failures)
        metric := m } := by
  have h0 : 0 < (runTestCase cls).failures.length + (runTestCase cls).errors.length := h
  have h1 : (runTestCase cls).testsRun ≠
      (runTestCase cls).failures.length + (runTestCase cls).errors.length := hne
  simp [UnittestCaseContext.evaluate, h0, h1, Nat.pos_iff_ne_zero]

/-- Names of failing and erroring tests as they appear in the hint list of
`evaluate` (script.py lines 67-79): error identifiers first, then failure
identifiers, each in reported order. -/
lemma mem_errors_append_failures (cls : TestCaseClass) (n : String) :
    n ∈ (runTestCase cls).errors ++ (runTestCase cls).failures ↔
      ∃ oc, (n, oc) ∈ cls.tests ∧ oc ≠ TestOutcome.pass := by
  simp only [runTestCase, loadTestsFromTestCase, List.mem_append,
    List.mem_map, List.mem_filter, beq_iff_eq]
  constructor
  · rintro (⟨t, ⟨ht, h2⟩, rfl⟩ | ⟨t, ⟨ht, h2⟩, rfl⟩) <;>
      exact ⟨t.2, by simpa using ht, by simp [h2]⟩
  · rintro ⟨oc, hmem, hne⟩
    cases oc with
    | pass => exact absurd rfl hne
    | fail => exact Or.inr ⟨(n, TestOutcome.fail), ⟨hmem, rfl⟩, rfl⟩
    | error => exact Or.inl ⟨(n, TestOutcome.error), ⟨hmem, rfl⟩, rfl⟩

/-! ### Claim theorems -/

/-- Claim C1: for every evaluation of a test identifier, the returned status
is determined by the counts from the test run: if failures + errors = 0 the
status is Ok; if failures + errors equals the number of tests run the status
is Critical; otherwise the status is Warning. -/
theorem evaluate_status_classification (cls : TestCaseClass) (m : String) :
    (problemCount cls = 0 →
      (UnittestCaseContext.evaluate cls m).state = ServiceState.Ok) ∧
    (0 < problemCount cls →
      problemCount cls = (runTestCase cls).testsRun →
      (UnittestCaseContext.evaluate cls m).state = ServiceState.Critical) ∧
    (0 < problemCount cls →
      problemCount cls ≠ (runTestCase cls).testsRun →
      (UnittestCaseContext.evaluate cls m).state = ServiceState.Warn) := by
  refine ⟨fun h0 => ?_, fun hpos hall => ?_, fun hpos hne => ?_⟩
  · rw [evaluate_eq_of_no_problems cls m h0]
  · rw [evaluate_eq_of_all_problems cls m hpos hall.symm]
  · rw [evaluate_eq_of_some_problems cls m hpos (fun he => hne he.symm)]

/-- Witness for C1 at a concrete input: one of two tests fails, so the
status is Warning. -/
theorem evaluate_status_classification_witness :
    0 < problemCount mixedCase ∧
    problemCount mixedCase ≠ (runTestCase mixedCase).testsRun ∧
    (UnittestCaseContext.evaluate mixedCase "MixedCase").state =
      ServiceState.Warn :=
  ⟨by decide, by decide,
    (evaluate_status_classification mixedCase "MixedCase").2.2 (by decide)
      (by decide)⟩

/-- Claim C2 (code bug): the suite `evaluate` runs is independent of the
metric passed in, and always consists of every test of the test case class;
an identifier naming a single test still runs the whole case.  In the source
(script.py lines 40-46) `test_name = metric[0]` is never used to select the
loaded tests. -/
theorem evaluate_runs_whole_case_regardless_of_metric :
    (∀ (cls : TestCaseClass) (m₁ m₂ : String),
      executedTests cls m₁ = executedTests cls m₂) ∧
    (∀ (cls : TestCaseClass) (m : String),
      executedTests cls m = cls.tests.map Prod.fst) ∧
    (∀ (cls : TestCaseClass) (m₁ m₂ : String),
      (UnittestCaseContext.evaluate cls m₁).state =
        (UnittestCaseContext.evaluate cls m₂).state) ∧
    executedTests mixedCase "MixedCase.test_a" = ["test_a", "test_b"] := by
  refine ⟨fun cls m₁ m₂ => rfl, fun cls m => rfl, fun cls m₁ m₂ => ?_, rfl⟩
  simp only [UnittestCaseContext.evaluate]
  split <;> rfl

/-- Claim C6 (counterexample): with two passing tests and metric
"AllPassCase.test_a", the Ok hint interpolates the test identifier, not the
number of tests that passed. -/
theorem evaluate_ok_hint_uses_name_not_count :
    problemCount allPassCase = 0 ∧
    (runTestCase allPassCase).testsRun = 2 ∧
    (UnittestCaseContext.evaluate allPassCase "AllPassCase.test_a").state =
      ServiceState.Ok ∧
    (UnittestCaseContext.evaluate allPassCase "AllPassCase.test_a").hint =
      "AllPassCase.test_a test passed" ∧
    (UnittestCaseContext.evaluate allPassCase "AllPassCase.test_a").hint ≠
      "2 test passed" := by
  refine ⟨by decide, by decide, ?_, ?_, ?_⟩ <;> decide

/-- Claim C6 (amended): when zero executed tests fail or error, `evaluate`
returns Ok with hint "<test identifier> test passed", where the interpolated
value is the metric name given to the evaluator. -/
theorem evaluate_ok_hint (cls : TestCaseClass) (m : String)
    (h : problemCount cls = 0) :
    (UnittestCaseContext.evaluate cls m).state = ServiceState.Ok ∧
    (UnittestCaseContext.evaluate cls m).hint = m ++ " test passed" := by
  rw [evaluate_eq_of_no_problems cls m h]
  exact ⟨rfl, rfl⟩

/-- Witness for the amended C6 at a concrete input. -/
theorem evaluate_ok_hint_witness :
    problemCount allPassCase = 0 ∧
    (UnittestCaseContext.evaluate allPassCase "AllPassCase").state =
      ServiceState.Ok ∧
    (UnittestCaseContext.evaluate allPassCase "AllPassCase").hint =
      "AllPassCase test passed" :=
  ⟨by decide,
    (evaluate_ok_hint allPassCase "AllPassCase" (by decide)).1,
    (evaluate_ok_hint allPassCase "AllPassCase" (by decide)).2⟩

/-- Claim C9: the summary renders the all-Ok path and the problem path
identically: both join the hints of the results with ", ", with no branching
on status. -/
theorem summary_ok_eq_problem (results : List EvalResult) :
    UnittestCaseResultsSummary.ok results =
      UnittestCaseResultsSummary.problem results ∧
    UnittestCaseResultsSummary.ok results =
      String.intercalate ", " (results.map EvalResult.hint) := by
  exact ⟨rfl, rfl⟩

/-- Claim C5: when at least one executed test fails or errors, the hint
starts with "All tests failed: " when every executed test failed or errored
and with "Some tests failed: " otherwise, followed by exactly the names of
the failing and erroring tests joined together; every such name is included
and every passing name is excluded. -/
theorem evaluate_problem_hint (cls : TestCaseClass) (m : String)
    (h : 0 < problemCount cls) :
    (problemCount cls = (runTestCase cls).testsRun →
      (UnittestCaseContext.evaluate cls m).hint =
        "All tests failed: " ++ String.intercalate ", "
          ((runTestCase cls).errors ++ (runTestCase cls).failures)) ∧
    (problemCount cls ≠ (runTestCase cls).testsRun →
      (UnittestCaseContext.evaluate cls m).hint =
        "Some tests failed: " ++ String.intercalate ", "
          ((runTestCase cls).errors ++ (runTestCase cls).failures)) ∧
    (∀ n : String,
      n ∈ (runTestCase cls).errors ++ (runTestCase cls).failures ↔
        ∃ oc, (n, oc) ∈ cls.tests ∧ oc ≠ TestOutcome.pass) := by
  refine ⟨fun hall => ?_, fun hne => ?_, mem_errors_append_failures cls⟩
  · rw [evaluate_eq_of_all_problems cls m h hall.symm]
  · rw [evaluate_eq_of_some_problems cls m h (fun he => hne he.symm)]

/-- Witness for C5 at a concrete input: both tests of `allFailCase` fail or
error, so the hint lists both names after "All tests failed: ". -/
theorem evaluate_problem_hint_witness :
    0 < problemCount allFailCase ∧
    problemCount allFailCase = (runTestCase allFailCase).testsRun ∧
    (UnittestCaseContext.evaluate allFailCase "AllFailCase").hint =
      "All tests failed: test_err, test_fail" :=
  ⟨by decide, by decide,
    ((evaluate_problem_hint allFailCase "AllFailCase" (by decide)).1
      (by decide)).trans (by decide)⟩

/-- Claim C10: when at least one executed test fails or errors, the names in
the hint appear in a fixed order: every error name first, then every failure
name, each group in the order the test run reported them, joined by ", ". -/
theorem evaluate_hint_name_order (cls : TestCaseClass) (m : String)
    (h : 0 < problemCount cls) :
    ∃ head, (head = "All tests failed: " ∨ head = "Some tests failed: ") ∧
      (UnittestCaseContext.evaluate cls m).hint =
        head ++ String.intercalate ", "
          (((loadTestsFromTestCase cls).filter
              (fun t => t.2 == TestOutcome.error)).map Prod.fst ++
           ((loadTestsFromTestCase cls).filter
              (fun t => t.2 == TestOutcome.fail)).map Prod.fst) := by
  by_cases hall : (runTestCase cls).testsRun = problemCount cls
  · exact ⟨"All tests failed: ", Or.inl rfl,
      by rw [evaluate_eq_of_all_problems cls m h hall]; rfl⟩
  · exact ⟨"Some tests failed: ", Or.inr rfl,
      by rw [evaluate_eq_of_some_problems cls m h hall]; rfl⟩

/-- Witness for C10 at a concrete input: the erroring test is listed before
the failing test. -/
theorem evaluate_hint_name_order_witness :
    0 < problemCount allFailCase ∧
    (UnittestCaseContext.evaluate allFailCase "AllFailCase").hint =
      "All tests failed: " ++ String.intercalate ", "
        (((loadTestsFromTestCase allFailCase).filter
            (fun t => t.2 == TestOutcome.error)).map Prod.fst ++
         ((loadTestsFromTestCase allFailCase).filter
            (fun t => t.2 == TestOutcome.fail)).map Prod.fst) := by
  refine ⟨by decide, ?_⟩
  rcases evaluate_hint_name_order allFailCase "AllFailCase" (by decide) with
    ⟨head, hhead, heq⟩
  rcases hhead with h1 | h1
  · rw [heq, h1]
  · exfalso
    have h3 : (UnittestCaseContext.evaluate allFailCase "AllFailCase").hint =
        "All tests failed: test_err, test_fail" := by decide
    rw [h1, h3] at heq
    exact absurd heq (by decide)

/-- Claim C3 (code bug): an invalid non-None default log level (here 33,
which `logging._levelToName` does not know) does NOT raise the configuration
error: the source (script.py lines 157-161) computes
`log_level_s = logging._levelToName.get(log_level)` but then tests
`if log_level is None` instead of `if log_level_s is None`, so execution
proceeds into argument parsing with a `None` default for
`--slack-log-level`; the error is raised only when the caller passes
literally `None`. -/
theorem checkDefaultLogLevel_misses_invalid_level :
    levelToName 33 = none ∧
    checkDefaultLogLevel (some 33) = PreParseOutcome.proceed none ∧
    (∀ msg, checkDefaultLogLevel (some 33) ≠ PreParseOutcome.configError msg) ∧
    checkDefaultLogLevel none =
      PreParseOutcome.configError
        ("Unrecognised default log-level set.  Use one of: " ++
         LOG_LEVEL_NAMES_STR) := by
  refine ⟨rfl, rfl, fun msg h => ?_, rfl⟩
  exact PreParseOutcome.noConfusion h

/-- Claim C4 (counterexample): with `--slack-log-level BOGUS` (not a
recognized severity name) but no webhook URL from either the command line or
the caller, `nagios_script` does NOT reach the usage-error path: the
validation at script.py lines 209-213 sits inside
`if slack_webhook_url is not None`, so execution continues with no handler
attached and no termination. -/
theorem setupNotification_skips_validation_without_webhook :
    nameToLevel "BOGUS" = none ∧
    setupNotification none none none
      { log_level := some "BOGUS", slack_webhook_url := none
        slack_channel := none, slack_user := none } =
      NotifySetupResult.noHandler ∧
    (∀ msg, setupNotification none none none
      { log_level := some "BOGUS", slack_webhook_url := none
        slack_channel := none, slack_user := none } ≠
      NotifySetupResult.usageError msg) := by
  refine ⟨rfl, rfl, fun msg h => ?_⟩
  exact NotifySetupResult.noConfusion h

/-- Claim C4 (amended): when the resolved webhook URL is present, an
unrecognized `--slack-log-level` value terminates via the argument parser
usage-error path and no notification handler is constructed; when no webhook
URL is resolved, the log level is never validated and execution continues
with no handler attached. -/
theorem setupNotification_invalid_level (default_webhook default_channel
    default_user : Option String) (parsed_args : ParsedArgs)
    (hbad : parsed_args.log_level.bind nameToLevel = none) :
    ((resolveOpt parsed_args.slack_webhook_url default_webhook).isSome →
      setupNotification default_webhook default_channel default_user
        parsed_args =
        NotifySetupResult.usageError
          ("Unrecognised log-level.  Use one of: " ++ LOG_LEVEL_NAMES_STR)) ∧
    (resolveOpt parsed_args.slack_webhook_url default_webhook = none →
      setupNotification default_webhook default_channel default_user
        parsed_args = NotifySetupResult.noHandler) := by
  constructor
  · intro hsome
    rcases hurl : resolveOpt parsed_args.slack_webhook_url default_webhook
      with _ | url
    · rw [hurl] at hsome; exact absurd hsome (by simp)
    · simp [setupNotification, hurl, hbad]
  · intro hnone
    simp [setupNotification, hnone]

/-- Witness for the amended C4 at a concrete input: a webhook URL is
resolved and the log-level value is unrecognized, so the outcome is the
usage error. -/
theorem setupNotification_invalid_level_witness :
    ({ log_level := some "BOGUS"
       slack_webhook_url := some "https://hooks.example.com/services/T0"
       slack_channel := none, slack_user := none } : ParsedArgs).log_level.bind
         nameToLevel = none ∧
    setupNotification none none none
      { log_level := some "BOGUS"
        slack_webhook_url := some "https://hooks.example.com/services/T0"
        slack_channel := none, slack_user := none } =
      NotifySetupResult.usageError
        ("Unrecognised log-level.  Use one of: " ++ LOG_LEVEL_NAMES_STR) :=
  ⟨rfl,
    (setupNotification_invalid_level none none none
      { log_level := some "BOGUS"
        slack_webhook_url := some "https://hooks.example.com/services/T0"
        slack_channel := none, slack_user := none } rfl).1 rfl⟩

/-- Claim C7: with zero positional test identifiers left over from parsing,
the selection handed to the resource is exactly the one-element list holding
the test case class name, and the resource yields exactly one metric for it
(the whole case runs). -/
theorem selectTestNames_default (class_name : String) :
    selectTestNames class_name [] = [class_name] ∧
    UnittestCaseResource.probe (selectTestNames class_name []) =
      [{ name := class_name, value := true,
         context := "UnittestCaseContext" }] := by
  exact ⟨rfl, rfl⟩

/-- Claim C8: each Slack configuration value resolves to the command-line
value when the flag is present and to the caller-supplied default otherwise;
when no webhook URL is resolved, no notification handler is attached; when a
webhook URL is resolved and the log-level value is recognized, exactly one
handler is attached, carrying the resolved URL, channel and user and the
looked-up severity threshold. -/
theorem setupNotification_resolution (default_webhook default_channel
    default_user : Option String) (parsed_args : ParsedArgs) :
    (∀ cmdline default_ v, cmdline = some v →
      resolveOpt cmdline default_ = some v) ∧
    (∀ cmdline default_, cmdline = (none : Option String) →
      resolveOpt cmdline default_ = default_) ∧
    (resolveOpt parsed_args.slack_webhook_url default_webhook = none →
      setupNotification default_webhook default_channel default_user
        parsed_args = NotifySetupResult.noHandler) ∧
    (∀ url level,
      resolveOpt parsed_args.slack_webhook_url default_webhook = some url →
      parsed_args.log_level.bind nameToLevel = some level →
      setupNotification default_webhook default_channel default_user
        parsed_args =
        NotifySetupResult.handlerAttached url
          (resolveOpt parsed_args.slack_channel default_channel)
          (resolveOpt parsed_args.slack_user default_user) level) := by
  refine ⟨fun cmdline default_ v hv => by rw [hv]; rfl,
    fun cmdline default_ hn => by rw [hn]; rfl,
    fun hnone => by simp [setupNotification, hnone],
    fun url level hurl hlevel => by simp [setupNotification, hurl, hlevel]⟩

/-- Witness for C8 at a concrete input: the command-line webhook URL and
user override nothing and the channel falls back to the caller default; the
handler is attached once at threshold 40 (ERROR). -/
theorem setupNotification_resolution_witness :
    ({ log_level := some "ERROR"
       slack_webhook_url := some "https://hooks.example.com/services/T1"
       slack_channel := none, slack_user := some "nagios-bot" } :
         ParsedArgs).slack_webhook_url = some
           "https://hooks.example.com/services/T1" ∧
    ({ log_level := some "ERROR"
       slack_webhook_url := some "https://hooks.example.com/services/T1"
       slack_channel := none, slack_user := some "nagios-bot" } :
         ParsedArgs).log_level.bind nameToLevel = some 40 ∧
    setupNotification none (some "general") none
      { log_level := some "ERROR"
        slack_webhook_url := some "https://hooks.example.com/services/T1"
        slack_channel := none, slack_user := some "nagios-bot" } =
      NotifySetupResult.handlerAttached
        "https://hooks.example.com/services/T1" (some "general")
        (some "nagios-bot") 40 :=
  ⟨rfl, rfl,
    (setupNotification_resolution none (some "general") none
      { log_level := some "ERROR"
        slack_webhook_url := some "https://hooks.example.com/services/T1"
        slack_channel := none, slack_user := some "nagios-bot" }).2.2.2
      "https://hooks.example.com/services/T1" 40 rfl rfl⟩
